import Mathlib

/-!
Shallow embedding of `linkerd/app/outbound/src/sidecar.rs` (outbound sidecar
assembly of the linkerd2 proxy), and verification of the specification's
claims about it.

Modelling conventions:
* Payload data defined outside this file (route tables, backend sets, parent
  references, logical addresses, socket addresses, timeouts) is opaque to
  `sidecar.rs`: the file only clones and repackages it.  Each such payload is
  modelled as a `Nat` token; the source code never inspects these values.
* `watch::Receiver` values are modelled by their current snapshot (the value
  `borrow()` / `borrow_and_update()` yields).  All the claims are about
  snapshot-level behaviour of the pure projectors and constructors.
* A Rust `expect`/panic is modelled by an `Option` result: `none` is the hard
  crash, `some` is successful construction.
* Rust's `Opaque` identifiers are rendered `Opaq` here (matching the crate's
  own `opaq` module naming); `is_opaque_protocol` is rendered
  `is_opaq_protocol`.
-/

/-- `http::Variant`: the negotiated HTTP version of a connection. -/
inductive HttpVariant where
  | Http1
  | H2
deriving DecidableEq

/-- `policy::http::Http1 { routes, failure_accrual }` (payloads opaque). -/
structure Http1Policy where
  routes : Nat
  failure_accrual : Nat
deriving DecidableEq

/-- `policy::http::Http2 { routes, failure_accrual }` (payloads opaque). -/
structure Http2Policy where
  routes : Nat
  failure_accrual : Nat
deriving DecidableEq

/-- `policy::grpc::Grpc { routes, failure_accrual }` (payloads opaque). -/
structure GrpcPolicy where
  routes : Nat
  failure_accrual : Nat
deriving DecidableEq

/-- `policy::tls::Tls { routes }` (payload opaque). -/
structure TlsPolicy where
  routes : Nat
deriving DecidableEq

/-- `policy::Protocol`: the tagged protocol variant of a client policy.
The `Opaque` arm of the source is rendered `Opaq`; its payload, as well as
the `Detect` timeout, are opaque tokens. -/
inductive PolicyProtocol where
  | Detect (http1 : Http1Policy) (http2 : Http2Policy) (timeout : Nat)
  | Http1 (p : Http1Policy)
  | Http2 (p : Http2Policy)
  | Grpc (p : GrpcPolicy)
  | Opaq (p : Nat)
  | Tls (p : TlsPolicy)
deriving DecidableEq

/-- `policy::ClientPolicy`: `parent` (reference to the logical owner) and
`backends` are opaque payloads; `protocol` is the tagged variant. -/
structure ClientPolicy where
  parent : Nat
  backends : Nat
  protocol : PolicyProtocol
deriving DecidableEq

/-- `profiles::Profile` snapshot: the fields `sidecar.rs` reads
(`http_routes`, `targets`), as opaque payloads. -/
structure Profile where
  http_routes : Nat
  targets : Nat
deriving DecidableEq

/-- `profiles::Receiver` as seen by `sidecar.rs`.

Modelled from the spec: `is_opaque_protocol()` (here `is_opaq_protocol`) and
`http::profile::should_override_policy` live outside this repository's
source; the spec says the former is a flag of the profile snapshot and the
latter "returns an address (meaning the profile declares novel routes or
target overrides)".  Both are modelled as fields of the receiver: the flag
as a `Bool`, the override check as an optional logical address token. -/
structure ProfileReceiver where
  profile : Profile
  is_opaq_protocol : Bool
  should_override_policy : Option Nat
deriving DecidableEq

/-- `protocol::Protocol`: the per-connection protocol decision
(`Opaque` rendered `Opaq`). -/
inductive Protocol where
  | Http1
  | Http2
  | Opaq
  | Tls
  | Detect
deriving DecidableEq

/-- `Sidecar`: the discovered target `(orig_dst, profile?, policy)`.
`policy` is the current snapshot of the policy watch. -/
structure Sidecar where
  orig_dst : Nat
  profile : Option ProfileReceiver
  policy : ClientPolicy
deriving DecidableEq

/-- `impl svc::Param<Protocol> for Sidecar`: if a profile is present and it
declares the target opaque, `Opaq`; otherwise map the policy's protocol
tag (`Http2` and `Grpc` both map to `Protocol::Http2`). -/
def Sidecar.protocolParam (s : Sidecar) : Protocol :=
  match s.profile with
  | some rx =>
      if rx.is_opaq_protocol then Protocol.Opaq
      else
        match s.policy.protocol with
        | PolicyProtocol.Http1 _ => Protocol.Http1
        | PolicyProtocol.Http2 _ => Protocol.Http2
        | PolicyProtocol.Grpc _ => Protocol.Http2
        | PolicyProtocol.Opaq _ => Protocol.Opaq
        | PolicyProtocol.Tls _ => Protocol.Tls
        | PolicyProtocol.Detect _ _ _ => Protocol.Detect
  | none =>
      match s.policy.protocol with
      | PolicyProtocol.Http1 _ => Protocol.Http1
      | PolicyProtocol.Http2 _ => Protocol.Http2
      | PolicyProtocol.Grpc _ => Protocol.Http2
      | PolicyProtocol.Opaq _ => Protocol.Opaq
      | PolicyProtocol.Tls _ => Protocol.Tls
      | PolicyProtocol.Detect _ _ _ => Protocol.Detect

/-- `impl PartialEq for Sidecar`: equality is solely by `orig_dst`. -/
def Sidecar.eqImpl (a b : Sidecar) : Bool :=
  a.orig_dst == b.orig_dst

/-- `impl Hash for Sidecar`: the stream of field hashes fed to the hasher
(only `orig_dst`). -/
def Sidecar.hashStream (s : Sidecar) : List Nat :=
  [s.orig_dst]

/-- `http::policy::HttpParams { addr, meta, routes, backends, failure_accrual }`. -/
structure HttpParams where
  addr : Nat
  meta : Nat
  routes : Nat
  backends : Nat
  failure_accrual : Nat
deriving DecidableEq

/-- `http::policy::GrpcParams { addr, meta, backends, routes, failure_accrual }`. -/
structure GrpcParams where
  addr : Nat
  meta : Nat
  backends : Nat
  routes : Nat
  failure_accrual : Nat
deriving DecidableEq

/-- `http::policy::Params`: either HTTP or gRPC policy route parameters. -/
inductive PolicyParams where
  | Http (p : HttpParams)
  | Grpc (p : GrpcParams)
deriving DecidableEq

/-- `http::profile::Routes { addr, routes, targets }`. -/
structure ProfileRoutes where
  addr : Nat
  routes : Nat
  targets : Nat
deriving DecidableEq

/-- `http::Routes`: policy-derived, profile-derived, or endpoint-pinned. -/
inductive HttpRoutes where
  | Policy (p : PolicyParams)
  | Profile (p : ProfileRoutes)
  | Endpoint (addr : Nat)
deriving DecidableEq

/-- `tls::Routes { addr, meta, routes, backends }`. -/
structure TlsRoutes where
  addr : Nat
  meta : Nat
  routes : Nat
  backends : Nat
deriving DecidableEq

/-- `RouteProvider`: which source of truth drives an `HttpSidecar`. -/
inductive RouteProvider where
  | ServiceProfile
  | ClientPolicy
deriving DecidableEq

/-- `HttpSidecar`: `routes` is the current snapshot of its routes watch. -/
structure HttpSidecar where
  orig_dst : Nat
  version : HttpVariant
  routes : HttpRoutes
  provider : RouteProvider
deriving DecidableEq

/-- `TlsSidecar`: `routes` is the current snapshot of its routes watch. -/
structure TlsSidecar where
  orig_dst : Nat
  routes : TlsRoutes
deriving DecidableEq

/-- `OpaqSidecar`: `routes` (built by the external
`opaq::routes_from_discovery`) is an opaque token. -/
structure OpaqSidecar where
  orig_dst : Nat
  routes : Nat
deriving DecidableEq

/-- `HttpSidecar::mk_policy_routes`: project an `http::Routes` from a policy
snapshot.  `Detect` selects the `http1` or `http2` branch by the negotiated
variant; `Http1`/`Http2` build HTTP params from their own arm; `Grpc` builds
gRPC params; `Opaque`/`Tls` yield `none` (the cross-family update that is
ignored). -/
def HttpSidecar.mk_policy_routes (orig_dst : Nat) (version : HttpVariant)
    (policy : ClientPolicy) : Option HttpRoutes :=
  let parent_ref := policy.parent
  match policy.protocol with
  | PolicyProtocol.Detect http1 http2 _ =>
      let routes :=
        match version with
        | HttpVariant.Http1 => http1.routes
        | HttpVariant.H2 => http2.routes
      let failure_accrual :=
        match version with
        | HttpVariant.Http1 => http1.failure_accrual
        | HttpVariant.H2 => http2.failure_accrual
      some (HttpRoutes.Policy (PolicyParams.Http
        { addr := orig_dst
          meta := parent_ref
          routes := routes
          backends := policy.backends
          failure_accrual := failure_accrual }))
  | PolicyProtocol.Http1 p =>
      some (HttpRoutes.Policy (PolicyParams.Http
        { addr := orig_dst
          meta := parent_ref
          routes := p.routes
          backends := policy.backends
          failure_accrual := p.failure_accrual }))
  | PolicyProtocol.Http2 p =>
      some (HttpRoutes.Policy (PolicyParams.Http
        { addr := orig_dst
          meta := parent_ref
          routes := p.routes
          backends := policy.backends
          failure_accrual := p.failure_accrual }))
  | PolicyProtocol.Grpc p =>
      some (HttpRoutes.Policy (PolicyParams.Grpc
        { addr := orig_dst
          meta := parent_ref
          backends := policy.backends
          routes := p.routes
          failure_accrual := p.failure_accrual }))
  | PolicyProtocol.Opaq _ => none
  | PolicyProtocol.Tls _ => none

/-- `HttpSidecar::mk_profile_routes`: wrap the profile's routes and targets
with the logical address. -/
def HttpSidecar.mk_profile_routes (addr : Nat) (profile : Profile) : HttpRoutes :=
  HttpRoutes.Profile
    { addr := addr
      routes := profile.http_routes
      targets := profile.targets }

/-- The closure passed to `http::spawn_routes` on the ServiceProfile path:
every profile snapshot projects to `some` routes. -/
def HttpSidecar.profileSpawnClosure (addr : Nat) (profile : Profile) :
    Option HttpRoutes :=
  some (HttpSidecar.mk_profile_routes addr profile)

/-- `protocol::Http<Sidecar>`: the parent target plus the connection's
negotiated HTTP variant (read back via `svc::Param<http::Variant>`). -/
structure ProtocolHttp where
  parent : Sidecar
  version : HttpVariant
deriving DecidableEq

/-- `impl From<protocol::Http<Sidecar>> for HttpSidecar`.  If the profile is
present and `should_override_policy` yields an address, seed the watch from
`mk_profile_routes` with `provider = ServiceProfile`; otherwise seed it from
`mk_policy_routes` with `provider = ClientPolicy`, where a `none` initial
projection is the `expect("initial policy must not be opaque")` hard crash
(modelled as `none`). -/
def HttpSidecar.fromHttp (parent : ProtocolHttp) : Option HttpSidecar :=
  let orig_dst := parent.parent.orig_dst
  let version := parent.version
  let policy := parent.parent.policy
  match parent.parent.profile with
  | some profile =>
      match profile.should_override_policy with
      | some addr =>
          some { orig_dst := orig_dst
                 version := version
                 routes := HttpSidecar.mk_profile_routes addr profile.profile
                 provider := RouteProvider.ServiceProfile }
      | none =>
          (HttpSidecar.mk_policy_routes orig_dst version policy).map fun init =>
            { orig_dst := orig_dst
              version := version
              routes := init
              provider := RouteProvider.ClientPolicy }
  | none =>
      (HttpSidecar.mk_policy_routes orig_dst version policy).map fun init =>
        { orig_dst := orig_dst
          version := version
          routes := init
          provider := RouteProvider.ClientPolicy }

/-- One step of the route-spawner loop (`http::spawn_routes` semantics,
§4.3 of the spec): a `some` projection is published, a `none` projection
leaves the last published value intact. -/
def spawnRoutesStep (current : HttpRoutes) (projected : Option HttpRoutes) :
    HttpRoutes :=
  match projected with
  | some r => r
  | none => current

/-- The spawner step applied to a live `HttpSidecar` on a profile update
(ServiceProfile path): only the routes watch changes. -/
def HttpSidecar.stepProfile (h : HttpSidecar) (addr : Nat) (profile : Profile) :
    HttpSidecar :=
  let projected := HttpSidecar.profileSpawnClosure addr profile
  { h with routes := spawnRoutesStep h.routes projected }

/-- The spawner step applied to a live `HttpSidecar` on a policy update
(ClientPolicy path): only the routes watch changes. -/
def HttpSidecar.stepPolicy (h : HttpSidecar) (policy : ClientPolicy) :
    HttpSidecar :=
  let projected := HttpSidecar.mk_policy_routes h.orig_dst h.version policy
  { h with routes := spawnRoutesStep h.routes projected }

/-- `impl PartialEq for HttpSidecar`: equality by `(orig_dst, version)`;
`provider` and the routes watch are not compared. -/
def HttpSidecar.eqImpl (a b : HttpSidecar) : Bool :=
  a.orig_dst == b.orig_dst && decide (a.version = b.version)

/-- Injective code of an `http::Variant` for the hash stream. -/
def HttpVariant.code : HttpVariant → Nat
  | HttpVariant.Http1 => 0
  | HttpVariant.H2 => 1

/-- Injective code of a `RouteProvider` for the hash stream. -/
def RouteProvider.code : RouteProvider → Nat
  | RouteProvider.ServiceProfile => 0
  | RouteProvider.ClientPolicy => 1

/-- `impl Hash for HttpSidecar`: the stream of field hashes fed to the
hasher, in source order: `orig_dst`, `version`, `provider`. -/
def HttpSidecar.hashStream (s : HttpSidecar) : List Nat :=
  [s.orig_dst, s.version.code, s.provider.code]

/-- `TlsSidecar::mk_policy_routes`: only a `Tls` policy projects to routes;
every other arm is the ignored cross-family update (`none`). -/
def TlsSidecar.mk_policy_routes (orig_dst : Nat) (policy : ClientPolicy) :
    Option TlsRoutes :=
  let parent_ref := policy.parent
  match policy.protocol with
  | PolicyProtocol.Tls t =>
      some { addr := orig_dst
             meta := parent_ref
             routes := t.routes
             backends := policy.backends }
  | _ => none

/-- `impl From<Sidecar> for TlsSidecar`: seed the watch from
`mk_policy_routes`; a `none` initial projection is the
`expect("initial policy must be tls")` hard crash (modelled as `none`). -/
def TlsSidecar.fromSidecar (parent : Sidecar) : Option TlsSidecar :=
  let orig_dst := parent.orig_dst
  let policy := parent.policy
  (TlsSidecar.mk_policy_routes orig_dst policy).map fun init =>
    { orig_dst := orig_dst, routes := init }

/-- `impl PartialEq for TlsSidecar`: equality solely by `orig_dst`. -/
def TlsSidecar.eqImpl (a b : TlsSidecar) : Bool :=
  a.orig_dst == b.orig_dst

/-- `impl Hash for TlsSidecar`: only `orig_dst` is hashed. -/
def TlsSidecar.hashStream (s : TlsSidecar) : List Nat :=
  [s.orig_dst]

/-- `impl PartialEq for OpaqSidecar`: equality solely by `orig_dst`. -/
def OpaqSidecar.eqImpl (a b : OpaqSidecar) : Bool :=
  a.orig_dst == b.orig_dst

/-- `impl Hash for OpaqSidecar`: only `orig_dst` is hashed. -/
def OpaqSidecar.hashStream (s : OpaqSidecar) : List Nat :=
  [s.orig_dst]

/-- Whether a policy protocol tag is the `Opaque` arm. -/
def PolicyProtocol.isOpaqTag : PolicyProtocol → Bool
  | PolicyProtocol.Opaq _ => true
  | _ => false

/-- Whether a policy protocol tag is the `Tls` arm. -/
def PolicyProtocol.isTlsTag : PolicyProtocol → Bool
  | PolicyProtocol.Tls _ => true
  | _ => false

/-- Whether an `http::Routes` value is the `Policy` variant. -/
def HttpRoutes.isPolicyVariant : HttpRoutes → Bool
  | HttpRoutes.Policy _ => true
  | _ => false

/-- Whether an `http::Routes` value is the `Profile` variant. -/
def HttpRoutes.isProfileVariant : HttpRoutes → Bool
  | HttpRoutes.Profile _ => true
  | _ => false

/-- C1: for every `Sidecar`, if a profile receiver is present and its
opaque-protocol flag is set, the derived `Protocol` is `Opaque` regardless
of the policy; otherwise the policy's protocol tag determines the result,
with `Http1`, `Http2`, `Opaque`, `Tls` and `Detect` tags mapping to the
corresponding `Protocol` variants. -/
theorem sidecar_protocol_decision (s : Sidecar) :
    (∀ rx, s.profile = some rx → rx.is_opaq_protocol = true →
      Sidecar.protocolParam s = Protocol.Opaq) ∧
    ((∀ rx, s.profile = some rx → rx.is_opaq_protocol = false) →
      (∀ p, s.policy.protocol = PolicyProtocol.Http1 p →
        Sidecar.protocolParam s = Protocol.Http1) ∧
      (∀ p, s.policy.protocol = PolicyProtocol.Http2 p →
        Sidecar.protocolParam s = Protocol.Http2) ∧
      (∀ p, s.policy.protocol = PolicyProtocol.Opaq p →
        Sidecar.protocolParam s = Protocol.Opaq) ∧
      (∀ p, s.policy.protocol = PolicyProtocol.Tls p →
        Sidecar.protocolParam s = Protocol.Tls) ∧
      (∀ h1 h2 t, s.policy.protocol = PolicyProtocol.Detect h1 h2 t →
        Sidecar.protocolParam s = Protocol.Detect)) := by
  obtain ⟨d, prof, pol⟩ := s
  constructor
  · rintro rx hrx hop
    subst hrx
    simp [Sidecar.protocolParam, hop]
  · intro hno
    cases prof with
    | none =>
        refine ⟨?_, ?_, ?_, ?_, ?_⟩
        · rintro p hp; simp at hp; simp [Sidecar.protocolParam, hp]
        · rintro p hp; simp at hp; simp [Sidecar.protocolParam, hp]
        · rintro p hp; simp at hp; simp [Sidecar.protocolParam, hp]
        · rintro p hp; simp at hp; simp [Sidecar.protocolParam, hp]
        · rintro h1 h2 t hp; simp at hp; simp [Sidecar.protocolParam, hp]
    | some rx =>
        have hf : rx.is_opaq_protocol = false := hno rx rfl
        refine ⟨?_, ?_, ?_, ?_, ?_⟩
        · rintro p hp; simp at hp; simp [Sidecar.protocolParam, hp, hf]
        · rintro p hp; simp at hp; simp [Sidecar.protocolParam, hp, hf]
        · rintro p hp; simp at hp; simp [Sidecar.protocolParam, hp, hf]
        · rintro p hp; simp at hp; simp [Sidecar.protocolParam, hp, hf]
        · rintro h1 h2 t hp; simp at hp; simp [Sidecar.protocolParam, hp, hf]

/-- Witness for C1: a concrete `Sidecar` whose profile declares the target
opaque derives `Protocol.Opaq` even though its policy is `Tls`. -/
theorem sidecar_protocol_decision_witness :
    Sidecar.protocolParam
      { orig_dst := 0
        profile := some { profile := { http_routes := 0, targets := 0 }
                          is_opaq_protocol := true
                          should_override_policy := none }
        policy := { parent := 0
                    backends := 0
                    protocol := PolicyProtocol.Tls { routes := 0 } } }
      = Protocol.Opaq :=
  (sidecar_protocol_decision _).1 _ rfl rfl

/-- C2: the HTTP policy projector on a `Detect` policy builds HTTP policy
routes from the `http1` branch when the connection is HTTP/1 and from the
`http2` branch when it is H2; on `Http1`/`Http2` it builds HTTP policy
routes from that arm; on `Grpc` it builds gRPC policy routes; on `Opaque`
or `Tls` it returns `none`. -/
theorem http_mk_policy_routes_spec (orig_dst : Nat) (version : HttpVariant)
    (policy : ClientPolicy) :
    (∀ h1 h2 t, policy.protocol = PolicyProtocol.Detect h1 h2 t →
      version = HttpVariant.Http1 →
      HttpSidecar.mk_policy_routes orig_dst version policy =
        some (HttpRoutes.Policy (PolicyParams.Http
          { addr := orig_dst
            meta := policy.parent
            routes := h1.routes
            backends := policy.backends
            failure_accrual := h1.failure_accrual }))) ∧
    (∀ h1 h2 t, policy.protocol = PolicyProtocol.Detect h1 h2 t →
      version = HttpVariant.H2 →
      HttpSidecar.mk_policy_routes orig_dst version policy =
        some (HttpRoutes.Policy (PolicyParams.Http
          { addr := orig_dst
            meta := policy.parent
            routes := h2.routes
            backends := policy.backends
            failure_accrual := h2.failure_accrual }))) ∧
    (∀ p, policy.protocol = PolicyProtocol.Http1 p →
      HttpSidecar.mk_policy_routes orig_dst version policy =
        some (HttpRoutes.Policy (PolicyParams.Http
          { addr := orig_dst
            meta := policy.parent
            routes := p.routes
            backends := policy.backends
            failure_accrual := p.failure_accrual }))) ∧
    (∀ p, policy.protocol = PolicyProtocol.Http2 p →
      HttpSidecar.mk_policy_routes orig_dst version policy =
        some (HttpRoutes.Policy (PolicyParams.Http
          { addr := orig_dst
            meta := policy.parent
            routes := p.routes
            backends := policy.backends
            failure_accrual := p.failure_accrual }))) ∧
    (∀ p, policy.protocol = PolicyProtocol.Grpc p →
      HttpSidecar.mk_policy_routes orig_dst version policy =
        some (HttpRoutes.Policy (PolicyParams.Grpc
          { addr := orig_dst
            meta := policy.parent
            backends := policy.backends
            routes := p.routes
            failure_accrual := p.failure_accrual }))) ∧
    (∀ p, policy.protocol = PolicyProtocol.Opaq p →
      HttpSidecar.mk_policy_routes orig_dst version policy = none) ∧
    (∀ p, policy.protocol = PolicyProtocol.Tls p →
      HttpSidecar.mk_policy_routes orig_dst version policy = none) := by
  obtain ⟨par, bk, prot⟩ := policy
  refine ⟨?_, ?_, ?_, ?_, ?_, ?_, ?_⟩
  · rintro h1 h2 t hp rfl
    subst hp
    simp [HttpSidecar.mk_policy_routes]
  · rintro h1 h2 t hp rfl
    subst hp
    simp [HttpSidecar.mk_policy_routes]
  · rintro p hp
    subst hp
    simp [HttpSidecar.mk_policy_routes]
  · rintro p hp
    subst hp
    simp [HttpSidecar.mk_policy_routes]
  · rintro p hp
    subst hp
    simp [HttpSidecar.mk_policy_routes]
  · rintro p hp
    subst hp
    simp [HttpSidecar.mk_policy_routes]
  · rintro p hp
    subst hp
    simp [HttpSidecar.mk_policy_routes]

/-- Witness for C2: a concrete `Http1` policy projects to the expected HTTP
policy routes. -/
theorem http_mk_policy_routes_spec_witness :
    HttpSidecar.mk_policy_routes 7 HttpVariant.Http1
      { parent := 1
        backends := 2
        protocol := PolicyProtocol.Http1 { routes := 3, failure_accrual := 4 } } =
      some (HttpRoutes.Policy (PolicyParams.Http
        { addr := 7, meta := 1, routes := 3, backends := 2, failure_accrual := 4 })) :=
  (http_mk_policy_routes_spec 7 HttpVariant.Http1 _).2.2.1 _ rfl

/-- Counterexample for C3 as stated: a `Sidecar` with no profile (hence on
the policy-driven path) whose initial policy is `Tls` — non-opaque — still
fails construction (the `expect` fires), refuting "non-opaque suffices". -/
theorem http_construction_nonopaq_insufficient :
    PolicyProtocol.isOpaqTag
      (PolicyProtocol.Tls { routes := 0 }) = false ∧
    HttpSidecar.fromHttp
      { parent := { orig_dst := 0
                    profile := none
                    policy := { parent := 0
                                backends := 0
                                protocol := PolicyProtocol.Tls { routes := 0 } } }
        version := HttpVariant.Http1 } = none := by
  decide

/-- C3 (amended): on the policy-driven path (profile absent or no override
address), `HttpSidecar` construction succeeds exactly when the initial
policy's protocol is neither `Opaque` nor `Tls`; on an `Opaque` or `Tls`
initial policy the `expect` is a hard crash. -/
theorem http_construction_policy_path (s : Sidecar) (v : HttpVariant)
    (hpath : Option.bind s.profile ProfileReceiver.should_override_policy = none) :
    ((PolicyProtocol.isOpaqTag s.policy.protocol = false ∧
      PolicyProtocol.isTlsTag s.policy.protocol = false) →
      (HttpSidecar.fromHttp { parent := s, version := v }).isSome = true) ∧
    ((PolicyProtocol.isOpaqTag s.policy.protocol = true ∨
      PolicyProtocol.isTlsTag s.policy.protocol = true) →
      HttpSidecar.fromHttp { parent := s, version := v } = none) := by
  obtain ⟨d, prof, pol⟩ := s
  obtain ⟨par, bk, prot⟩ := pol
  cases prof with
  | none =>
      cases prot <;>
        simp_all [HttpSidecar.fromHttp, HttpSidecar.mk_policy_routes,
          PolicyProtocol.isOpaqTag, PolicyProtocol.isTlsTag]
  | some rx =>
      simp only [Option.some_bind] at hpath
      cases prot <;>
        simp_all [HttpSidecar.fromHttp, HttpSidecar.mk_policy_routes,
          PolicyProtocol.isOpaqTag, PolicyProtocol.isTlsTag]

/-- Witness for the amended C3: a concrete profile-less target with an
`Http1` policy constructs successfully. -/
theorem http_construction_policy_path_witness :
    (HttpSidecar.fromHttp
      { parent := { orig_dst := 0
                    profile := none
                    policy := { parent := 0
                                backends := 0
                                protocol := PolicyProtocol.Http1
                                  { routes := 0, failure_accrual := 0 } } }
        version := HttpVariant.Http1 }).isSome = true :=
  (http_construction_policy_path
    { orig_dst := 0
      profile := none
      policy := { parent := 0
                  backends := 0
                  protocol := PolicyProtocol.Http1
                    { routes := 0, failure_accrual := 0 } } }
    HttpVariant.Http1 rfl).1 (by decide)

/-- C4: `TlsSidecar` construction succeeds exactly when the initial policy's
protocol tag is `Tls` (yielding the projected TLS routes), and is a hard
crash (the `expect` fires, modelled `none`) for every other tag. -/
theorem tls_sidecar_construction (s : Sidecar) :
    (∀ t, s.policy.protocol = PolicyProtocol.Tls t →
      TlsSidecar.fromSidecar s =
        some { orig_dst := s.orig_dst
               routes := { addr := s.orig_dst
                           meta := s.policy.parent
                           routes := t.routes
                           backends := s.policy.backends } }) ∧
    (PolicyProtocol.isTlsTag s.policy.protocol = false →
      TlsSidecar.fromSidecar s = none) := by
  obtain ⟨d, prof, pol⟩ := s
  obtain ⟨par, bk, prot⟩ := pol
  constructor
  · rintro t ht
    simp at ht
    subst ht
    simp [TlsSidecar.fromSidecar, TlsSidecar.mk_policy_routes]
  · intro hnt
    cases prot <;>
      simp_all [TlsSidecar.fromSidecar, TlsSidecar.mk_policy_routes,
        PolicyProtocol.isTlsTag]

/-- Witness for C4: a concrete `Tls`-policy target constructs the expected
`TlsSidecar`. -/
theorem tls_sidecar_construction_witness :
    TlsSidecar.fromSidecar
      { orig_dst := 3
        profile := none
        policy := { parent := 1
                    backends := 2
                    protocol := PolicyProtocol.Tls { routes := 5 } } } =
      some { orig_dst := 3
             routes := { addr := 3, meta := 1, routes := 5, backends := 2 } } :=
  (tls_sidecar_construction _).1 _ rfl

/-- C5: a successfully constructed `HttpSidecar` records
`provider = ServiceProfile` with profile-projected routes when the parent's
profile is present and yields an override address, and
`provider = ClientPolicy` with policy-projected routes otherwise; the
spawner steps never modify the provider field. -/
theorem http_provider_selection (s : Sidecar) (v : HttpVariant)
    (h : HttpSidecar)
    (hcons : HttpSidecar.fromHttp { parent := s, version := v } = some h) :
    (∀ rx addr, s.profile = some rx → rx.should_override_policy = some addr →
      h.provider = RouteProvider.ServiceProfile ∧
      h.routes = HttpSidecar.mk_profile_routes addr rx.profile) ∧
    (Option.bind s.profile ProfileReceiver.should_override_policy = none →
      h.provider = RouteProvider.ClientPolicy ∧
      some h.routes = HttpSidecar.mk_policy_routes s.orig_dst v s.policy) ∧
    (∀ addr profile,
      (HttpSidecar.stepProfile h addr profile).provider = h.provider) ∧
    (∀ policy, (HttpSidecar.stepPolicy h policy).provider = h.provider) := by
  obtain ⟨d, prof, pol⟩ := s
  refine ⟨?_, ?_, ?_, ?_⟩
  · rintro rx addr hrx haddr
    simp at hrx
    subst hrx
    simp [HttpSidecar.fromHttp, haddr] at hcons
    subst hcons
    simp
  · intro hpath
    cases prof with
    | none =>
        simp [HttpSidecar.fromHttp] at hcons
        obtain ⟨init, hinit, hh⟩ := hcons
        subst hh
        simp [hinit]
    | some rx =>
        simp only [Option.some_bind] at hpath
        simp [HttpSidecar.fromHttp, hpath] at hcons
        obtain ⟨init, hinit, hh⟩ := hcons
        subst hh
        simp [hinit]
  · intro addr profile
    simp [HttpSidecar.stepProfile]
  · intro policy
    simp [HttpSidecar.stepPolicy]

/-- Witness for C5: a concrete target whose profile yields an override
address constructs an `HttpSidecar` with `provider = ServiceProfile`. -/
theorem http_provider_selection_witness :
    ({ orig_dst := 0
       version := HttpVariant.Http1
       routes := HttpRoutes.Profile { addr := 9, routes := 1, targets := 2 }
       provider := RouteProvider.ServiceProfile } : HttpSidecar).provider =
      RouteProvider.ServiceProfile :=
  ((http_provider_selection
      { orig_dst := 0
        profile := some { profile := { http_routes := 1, targets := 2 }
                          is_opaq_protocol := false
                          should_override_policy := some 9 }
        policy := { parent := 0
                    backends := 0
                    protocol := PolicyProtocol.Opaq 0 } }
      HttpVariant.Http1 _ rfl).1 _ 9 rfl rfl).1

/-- C6: two `HttpSidecar` values are equal exactly when they agree on
`(orig_dst, version)`; the provider does not affect equality but does enter
the hash stream, so two equal values differing only in provider hash
differently. -/
theorem http_sidecar_eq_hash :
    (∀ a b : HttpSidecar, HttpSidecar.eqImpl a b = true ↔
      (a.orig_dst = b.orig_dst ∧ a.version = b.version)) ∧
    (∃ a b : HttpSidecar, HttpSidecar.eqImpl a b = true ∧
      a.provider ≠ b.provider ∧
      HttpSidecar.hashStream a ≠ HttpSidecar.hashStream b) := by
  constructor
  · intro a b
    simp [HttpSidecar.eqImpl]
  · refine ⟨{ orig_dst := 0
              version := HttpVariant.Http1
              routes := HttpRoutes.Endpoint 0
              provider := RouteProvider.ServiceProfile },
            { orig_dst := 0
              version := HttpVariant.Http1
              routes := HttpRoutes.Endpoint 0
              provider := RouteProvider.ClientPolicy }, ?_⟩
    decide

/-- C7: for `Sidecar`, `TlsSidecar` and `OpaqSidecar`, equality holds
exactly when the `orig_dst` fields agree, and the hash stream depends only
on `orig_dst` (profile, policy and routes contents never distinguish two
targets with the same `orig_dst`). -/
theorem target_eq_hash_by_orig_dst :
    (∀ a b : Sidecar, Sidecar.eqImpl a b = true ↔ a.orig_dst = b.orig_dst) ∧
    (∀ a b : Sidecar, a.orig_dst = b.orig_dst →
      Sidecar.hashStream a = Sidecar.hashStream b) ∧
    (∀ a b : TlsSidecar, TlsSidecar.eqImpl a b = true ↔ a.orig_dst = b.orig_dst) ∧
    (∀ a b : TlsSidecar, a.orig_dst = b.orig_dst →
      TlsSidecar.hashStream a = TlsSidecar.hashStream b) ∧
    (∀ a b : OpaqSidecar, OpaqSidecar.eqImpl a b = true ↔ a.orig_dst = b.orig_dst) ∧
    (∀ a b : OpaqSidecar, a.orig_dst = b.orig_dst →
      OpaqSidecar.hashStream a = OpaqSidecar.hashStream b) := by
  refine ⟨?_, ?_, ?_, ?_, ?_, ?_⟩
  · intro a b
    simp [Sidecar.eqImpl]
  · intro a b hab
    simp [Sidecar.hashStream, hab]
  · intro a b
    simp [TlsSidecar.eqImpl]
  · intro a b hab
    simp [TlsSidecar.hashStream, hab]
  · intro a b
    simp [OpaqSidecar.eqImpl]
  · intro a b hab
    simp [OpaqSidecar.hashStream, hab]

/-- Witness for C7: two concrete `Sidecar` targets that differ in profile
and policy but share `orig_dst` have the same hash stream. -/
theorem target_eq_hash_by_orig_dst_witness :
    Sidecar.hashStream
      { orig_dst := 4
        profile := none
        policy := { parent := 0, backends := 0, protocol := PolicyProtocol.Opaq 0 } } =
    Sidecar.hashStream
      { orig_dst := 4
        profile := some { profile := { http_routes := 1, targets := 2 }
                          is_opaq_protocol := true
                          should_override_policy := some 3 }
        policy := { parent := 5
                    backends := 6
                    protocol := PolicyProtocol.Tls { routes := 7 } } } :=
  target_eq_hash_by_orig_dst.2.1 _ _ rfl

/-- C8: the TLS policy projector yields `some` routes (with address from
`orig_dst`, meta from the policy parent, routes from the `Tls` arm and
backends from the policy) exactly when the protocol tag is `Tls`, and
`none` for every other tag. -/
theorem tls_mk_policy_routes_spec (orig_dst : Nat) (policy : ClientPolicy) :
    (∀ t, policy.protocol = PolicyProtocol.Tls t →
      TlsSidecar.mk_policy_routes orig_dst policy =
        some { addr := orig_dst
               meta := policy.parent
               routes := t.routes
               backends := policy.backends }) ∧
    (PolicyProtocol.isTlsTag policy.protocol = false →
      TlsSidecar.mk_policy_routes orig_dst policy = none) := by
  obtain ⟨par, bk, prot⟩ := policy
  constructor
  · rintro t ht
    simp at ht
    subst ht
    simp [TlsSidecar.mk_policy_routes]
  · intro hnt
    cases prot <;>
      simp_all [TlsSidecar.mk_policy_routes, PolicyProtocol.isTlsTag]

/-- Witness for C8: a concrete `Http1` policy projects to `none`. -/
theorem tls_mk_policy_routes_spec_witness :
    TlsSidecar.mk_policy_routes 2
      { parent := 3
        backends := 4
        protocol := PolicyProtocol.Http1 { routes := 0, failure_accrual := 0 } } =
      none :=
  (tls_mk_policy_routes_spec 2 _).2 rfl

/-- C9: every `some` result of the HTTP policy projector is a
`Routes::Policy` value, and every result of the HTTP profile projector is a
`Routes::Profile` value, so the published variant identifies the provider. -/
theorem http_routes_variant_identifies_provider :
    (∀ (orig_dst : Nat) (version : HttpVariant) (policy : ClientPolicy)
      (r : HttpRoutes),
      HttpSidecar.mk_policy_routes orig_dst version policy = some r →
      HttpRoutes.isPolicyVariant r = true) ∧
    (∀ (addr : Nat) (profile : Profile),
      HttpRoutes.isProfileVariant (HttpSidecar.mk_profile_routes addr profile) =
        true) := by
  constructor
  · intro orig_dst version policy r hr
    obtain ⟨par, bk, prot⟩ := policy
    cases prot <;>
      simp [HttpSidecar.mk_policy_routes] at hr <;>
      subst hr <;>
      simp [HttpRoutes.isPolicyVariant]
  · intro addr profile
    simp [HttpSidecar.mk_profile_routes, HttpRoutes.isProfileVariant]

/-- Witness for C9: the routes projected from a concrete `Http1` policy are
a `Policy` variant. -/
theorem http_routes_variant_witness :
    HttpRoutes.isPolicyVariant
      (HttpRoutes.Policy (PolicyParams.Http
        { addr := 0, meta := 0, routes := 0, backends := 0, failure_accrual := 0 })) =
      true :=
  http_routes_variant_identifies_provider.1 0 HttpVariant.Http1
    { parent := 0
      backends := 0
      protocol := PolicyProtocol.Http1 { routes := 0, failure_accrual := 0 } }
    _ rfl

/-- C10: when the parent's profile is present and yields an override
address, `HttpSidecar` construction succeeds for every policy snapshot
(here an `Opaque` one), the result is on the ServiceProfile path, and the
profile-driven spawner closure returns `some` on every profile snapshot. -/
theorem http_profile_path_total (s : Sidecar) (v : HttpVariant)
    (rx : ProfileReceiver) (addr : Nat)
    (hprof : s.profile = some rx)
    (hover : rx.should_override_policy = some addr) :
    (HttpSidecar.fromHttp { parent := s, version := v }).isSome = true ∧
    (∀ h, HttpSidecar.fromHttp { parent := s, version := v } = some h →
      h.provider = RouteProvider.ServiceProfile) ∧
    (∀ profile, (HttpSidecar.profileSpawnClosure addr profile).isSome = true) := by
  obtain ⟨d, prof, pol⟩ := s
  simp at hprof
  subst hprof
  refine ⟨?_, ?_, ?_⟩
  · simp [HttpSidecar.fromHttp, hover]
  · intro h hc
    simp [HttpSidecar.fromHttp, hover] at hc
    subst hc
    simp
  · intro profile
    simp [HttpSidecar.profileSpawnClosure]

/-- Witness for C10: a concrete target whose profile yields an override
address and whose policy is `Opaque` still constructs successfully. -/
theorem http_profile_path_total_witness :
    (HttpSidecar.fromHttp
      { parent := { orig_dst := 0
                    profile := some { profile := { http_routes := 0, targets := 0 }
                                      is_opaq_protocol := false
                                      should_override_policy := some 9 }
                    policy := { parent := 0
                                backends := 0
                                protocol := PolicyProtocol.Opaq 0 } }
        version := HttpVariant.Http1 }).isSome = true :=
  (http_profile_path_total
    { orig_dst := 0
      profile := some { profile := { http_routes := 0, targets := 0 }
                        is_opaq_protocol := false
                        should_override_policy := some 9 }
      policy := { parent := 0
                  backends := 0
                  protocol := PolicyProtocol.Opaq 0 } }
    HttpVariant.Http1
    { profile := { http_routes := 0, targets := 0 }
      is_opaq_protocol := false
      should_override_policy := some 9 }
    9 rfl rfl).1
